import Mathlib

/-!
Verification of the sekiyamail mail-reply generator.

This file gives a shallow embedding in Lean 4 of the parts of the
repository relevant to its specification claims:

* the information-block data model (`src/app/types.ts`),
* the prompt assembly pipeline of the generation endpoint
  (`src/app/api/mail/route.ts`: `formatInfoBlocks`, the `fullPrompt`
  template, `ensureClient`, and the `POST` handler control flow),
* the request schema (the zod discriminated union in `route.ts`),
* the UI state operations (`addBlock` / `updateBlock` / `deleteBlock`
  from `src/app/page.tsx`, and the preset application performed by
  `togglePreset` in `src/app/components/InfoBlockEditor.tsx`).

External effects are made explicit: the LLM client is a stub function
from call index to outcome, `process.env` is a record, and the handler
returns its HTTP response together with the trace of model calls it
attempted.  JavaScript strings are modelled by Lean `String`;
`String.prototype.trim` is modelled by `jsTrim` below (structural, so
that it evaluates inside the kernel).
-/

/-- Model of JavaScript `String.prototype.trim`: drop whitespace from
both ends.  Defined structurally over the character list so that it
reduces in the kernel. -/
def jsTrim (s : String) : String :=
  String.mk (((s.data.dropWhile Char.isWhitespace).reverse.dropWhile Char.isWhitespace).reverse)

/-- Model of JavaScript `Array.prototype.join(sep)`. -/
def joinSep (sep : String) : List String → String
  | [] => ""
  | [x] => x
  | x :: y :: xs => x ++ sep ++ joinSep sep (y :: xs)

/-- `SubstrOf v s` holds when `v` occurs verbatim (contiguously) in `s`. -/
def SubstrOf (v s : String) : Prop := ∃ p q, s = p ++ (v ++ q)

theorem substrOf_refl (s : String) : SubstrOf s s :=
  ⟨"", "", by rw [String.append_empty, String.empty_append]⟩

theorem substrOf_trans {x y z : String} (h₁ : SubstrOf x y) (h₂ : SubstrOf y z) :
    SubstrOf x z := by
  obtain ⟨p, q, rfl⟩ := h₁
  obtain ⟨p₂, q₂, rfl⟩ := h₂
  exact ⟨p₂ ++ p, q ++ q₂, by simp [String.append_assoc]⟩

theorem substrOf_append_left (p s : String) : SubstrOf s (p ++ s) :=
  ⟨p, "", by rw [String.append_empty]⟩

theorem substrOf_append_right (s q : String) : SubstrOf s (s ++ q) :=
  ⟨"", q, by rw [String.empty_append]⟩

theorem substrOf_wrap (p s q : String) : SubstrOf s (p ++ s ++ q) :=
  ⟨p, q, by rw [String.append_assoc]⟩

theorem substrOf_extend_right {x s : String} (h : SubstrOf x s) (q : String) :
    SubstrOf x (s ++ q) :=
  substrOf_trans h (substrOf_append_right s q)

theorem substrOf_joinSep {x : String} (sep : String) {l : List String} (h : x ∈ l) :
    SubstrOf x (joinSep sep l) := by
  induction l with
  | nil => cases h
  | cons a t ih =>
    rcases List.mem_cons.mp h with rfl | hmem
    · cases t with
      | nil => exact substrOf_refl x
      | cons b t' =>
        exact ⟨"", sep ++ joinSep sep (b :: t'), by simp [joinSep, String.append_assoc, String.empty_append]⟩
    · cases t with
      | nil => cases hmem
      | cons b t' =>
        exact substrOf_trans (ih hmem) ⟨a ++ sep, "", by simp [joinSep, String.append_assoc, String.append_empty]⟩

/-! ## Data model (`src/app/types.ts`) -/

/-- The fixed enumeration of block kinds (`BlockType` in `types.ts`,
matching the zod enum in `route.ts`). -/
inductive BlockType where
  | breakfast | dinner | transfer | checkin | massage | spa | cake
  | service | decoration | meal_add | lunch | facility | other
deriving DecidableEq, Repr

/-- `BlockField` from `types.ts`.  `includeInReply` is optional and
defaults to `true` wherever it is read (`?? true` in the sources; the
zod schema applies `.default(true)` at parse time, which composes with
`?? true` to the same behaviour). -/
structure BlockField where
  id : String
  label : String
  value : String
  includeInReply : Option Bool
deriving DecidableEq, Repr

/-- `InfoBlock` from `types.ts`. -/
structure InfoBlock where
  id : String
  type : BlockType
  title : Option String
  fields : List BlockField
deriving DecidableEq, Repr

/-! ## `formatInfoBlocks` (`route.ts` lines 57-98) -/

/-- The `blockLabels` record of `route.ts`. -/
def blockLabels : BlockType → String
  | .breakfast => "朝食"
  | .dinner => "夕食"
  | .transfer => "送迎"
  | .checkin => "チェックイン/アウト"
  | .massage => "マッサージ"
  | .spa => "スパ"
  | .cake => "ケーキ"
  | .service => "サービス"
  | .decoration => "装飾"
  | .meal_add => "食事追加"
  | .lunch => "ランチ"
  | .facility => "施設利用"
  | .other => "その他"

/-- The wire tag of a block type (the string of the zod enum), used as
the final fallback of `block.title || blockLabels[block.type] || block.type`. -/
def blockTypeTag : BlockType → String
  | .breakfast => "breakfast"
  | .dinner => "dinner"
  | .transfer => "transfer"
  | .checkin => "checkin"
  | .massage => "massage"
  | .spa => "spa"
  | .cake => "cake"
  | .service => "service"
  | .decoration => "decoration"
  | .meal_add => "meal_add"
  | .lunch => "lunch"
  | .facility => "facility"
  | .other => "other"

/-- `const label = block.title || blockLabels[block.type] || block.type`
(JavaScript `||` falls through on `undefined` and on the empty string). -/
def resolveLabel (b : InfoBlock) : String :=
  match b.title with
  | some t => if t ≠ "" then t else (if blockLabels b.type ≠ "" then blockLabels b.type else blockTypeTag b.type)
  | none => if blockLabels b.type ≠ "" then blockLabels b.type else blockTypeTag b.type

/-- The per-field inclusion filter of `formatInfoBlocks`:
`const shouldInclude = field.includeInReply ?? true;
 if (shouldInclude && field.value.trim()) { ... }`. -/
def keepField (f : BlockField) : Bool :=
  f.includeInReply.getD true && decide (jsTrim f.value ≠ "")

/-- The line pushed for a kept field: ``  ${field.label}: ${field.value}``. -/
def fieldLine (f : BlockField) : String :=
  "  " ++ f.label ++ ": " ++ f.value

/-- The first element of `parts`: ``[${index + 1}] ${label}``. -/
def labelLine (index : Nat) (b : InfoBlock) : String :=
  "[" ++ toString (index + 1) ++ "] " ++ resolveLabel b

/-- One block's rendering: the label line followed by the kept field
lines, joined with `"\n"`. -/
def renderBlock (index : Nat) (b : InfoBlock) : String :=
  joinSep "\n" (labelLine index b :: (b.fields.filter keepField).map fieldLine)

/-- `blocks.map((block, index) => ...)`: render each block with its
index. -/
def renderAll (index : Nat) : List InfoBlock → List String
  | [] => []
  | b :: bs => renderBlock index b :: renderAll (index + 1) bs

def mustIncludeHeader : String :=
  "========================================\n【必須情報：返信文に必ず含めること】\n========================================\n\n"

def mustIncludeGuide : String :=
  "以下の情報を正確に返信文に組み込んでください。\n各ブロックの情報は、そのままの数値・時間・料金・場所などを使用してください。\n\n"

def mustIncludeFooter : String :=
  "\n\n========================================\n【必須情報ここまで】\n========================================\n\n"

/-- `formatInfoBlocks` from `route.ts` (lines 73-98). -/
def formatInfoBlocks (blocks : List InfoBlock) : String :=
  if blocks.isEmpty then ""
  else
    "\n\n" ++ mustIncludeHeader ++ mustIncludeGuide
      ++ joinSep "\n\n" (renderAll 0 blocks) ++ mustIncludeFooter

/-- Remove from a block exactly the fields that the inclusion filter of
`formatInfoBlocks` drops. -/
def dropExcludedFields (b : InfoBlock) : InfoBlock :=
  { b with fields := b.fields.filter keepField }

/-! ## Tone and length guides (`route.ts` lines 39-55) -/

inductive Tone where
  | polite | light | casual
deriving DecidableEq, Repr

inductive ReplyLength where
  | short | medium | long
deriving DecidableEq, Repr

def toneGuides : Tone → String
  | .polite => "ビジネスメールとして丁寧で落ち着いた敬語を用い、誠実で落ち着いた印象を与えてください。"
  | .light => "ビジネスの礼儀を守りつつも、親しみやすく柔らかい表現でコミュニケーションしてください。"
  | .casual => "カジュアルかつフレンドリーに、相手との距離を縮める言葉遣いで返信してください。ただし失礼にはならないように配慮してください。"

def lengthGuides : ReplyLength → String
  | .short => "全体で4〜5文程度にまとめ、要点だけを手短に伝えてください。"
  | .medium => "全体で6〜8文ほど、2段落程度で適度に情報量を持たせてください。"
  | .long => "全体で8〜12文程度、必要に応じて箇条書きも用いて詳細に説明してください。"

/-! ## The generation prompt (`route.ts` lines 173-212) -/

/-- ``payload.translatedCustomerText?.trim() ? payload.translatedCustomerText.trim()
: payload.customerText.trim()``. -/
def baseTextOf (customerText : String) (translatedCustomerText : Option String) : String :=
  match translatedCustomerText with
  | some t => if jsTrim t ≠ "" then jsTrim t else jsTrim customerText
  | none => jsTrim customerText

/-- `payload.infoBlocks ? formatInfoBlocks(payload.infoBlocks) : ""`. -/
def infoBlocksTextOf (blocks : Option (List InfoBlock)) : String :=
  match blocks with
  | some bs => formatInfoBlocks bs
  | none => ""

/-- ``${payload.notes?.trim() || "特になし"}`` inside the template. -/
def notesTextOf (notes : Option String) : String :=
  match notes with
  | some n => if jsTrim n ≠ "" then jsTrim n else "特になし"
  | none => "特になし"

/-- The fixed tail of the `fullPrompt` template literal, after the
length guide. -/
def outputRules : String :=
  "\n\n# 出力条件（厳守）\n1. 本文のみを記載（件名・署名・挨拶文は不要）\n2. 「お世話になっております」「今後ともよろしくお願いします」などの定型句は省略\n3. **「必須情報」セクションの全ての情報を、数値・時間・料金・場所などを正確にそのまま使用して返信文に組み込むこと**\n4. 情報を推測や変更せず、提供されたデータを正確に反映すること\n5. 社内メモの内容も反映させること\n6. 必要最小限の情報だけを簡潔に記載\n7. 余計な確認や質問は追加しない\n8. 要点だけを端的に伝える\n\n# 重要な注意\n- 「必須情報」セクションに記載された料金は、そのままの数値を使用してください（例: 4,400円 → 「4,400円」）\n- 時間もそのまま使用してください（例: 7:45~10:00 → 「7時45分から10時まで」）\n- 場所やその他の情報も、提供されたデータを正確にそのまま使用してください\n- 情報を推測したり、変更したりしないでください"

/-- The `fullPrompt` template literal of `route.ts` (lines 188-212). -/
def fullPrompt (baseText infoBlocksText : String) (notes : Option String)
    (tone : Tone) (len : ReplyLength) : String :=
  "# お客様からのメール（参照用）\n" ++ baseText ++ "\n" ++ infoBlocksText
    ++ "\n# 社内メモ（返信に盛り込みたい要点）\n" ++ notesTextOf notes
    ++ "\n\n# 返信スタイル\n" ++ toneGuides tone ++ "\n" ++ lengthGuides len
    ++ outputRules

/-- The prompt the generate branch of `POST` sends as the user message,
as a function of the validated payload fields. -/
def generatePrompt (customerText : String) (translatedCustomerText : Option String)
    (blocks : Option (List InfoBlock)) (notes : Option String)
    (tone : Tone) (len : ReplyLength) : String :=
  fullPrompt (baseTextOf customerText translatedCustomerText)
    (infoBlocksTextOf blocks) notes tone len

/-! ## Request validation (the zod schema, `route.ts` lines 9-37)

The raw request is modelled post-JSON-decoding: fields that the zod
schema would reject on type grounds other than presence (non-string
values, malformed blocks, unknown enum members) are outside the model,
which is enough for every claim; presence and the `min(1)` length
check on `customerText` are modelled exactly. -/

/-- Inbound request body, discriminated by its `action` field.
`unknownAction` stands for a body whose `action` is missing or not one
of the two literals of the discriminated union. -/
inductive RawRequest where
  | translateReq (customerText : Option String)
  | generateReq (customerText : Option String) (translatedCustomerText : Option String)
      (infoBlocks : Option (List InfoBlock)) (notes : Option String)
      (tone : Option Tone) (length : Option ReplyLength)
  | unknownAction
deriving DecidableEq, Repr

/-- A successfully validated request (`parsed.data`). -/
inductive Payload where
  | translatePayload (customerText : String)
  | generatePayload (customerText : String) (translatedCustomerText : Option String)
      (infoBlocks : Option (List InfoBlock)) (notes : Option String)
      (tone : Tone) (length : ReplyLength)
deriving DecidableEq, Repr

/-- Field-level errors of `z.string().min(1, "customerText is required")`:
a missing field is an invalid-type error, an empty string fails `min(1)`.
A string of one or more characters — whitespace included — passes. -/
def customerTextErrors (customerText : Option String) : List (String × String) :=
  match customerText with
  | none => [("customerText", "Required")]
  | some s => if 1 ≤ s.length then [] else [("customerText", "customerText is required")]

/-- All field errors of the `generate` variant (its `tone` and `length`
are required enums; the remaining fields are optional). -/
def generateFieldErrors (customerText : Option String) (tone : Option Tone)
    (len : Option ReplyLength) : List (String × String) :=
  customerTextErrors customerText
    ++ (match tone with | none => [("tone", "Required")] | some _ => [])
    ++ (match len with | none => [("length", "Required")] | some _ => [])

/-- `schema.safeParse`: `.error` carries the flattened field errors. -/
def parseRequest : RawRequest → Except (List (String × String)) Payload
  | .translateReq customerText =>
    match customerText with
    | some s =>
      if customerTextErrors (some s) = [] then .ok (.translatePayload s)
      else .error (customerTextErrors (some s))
    | none => .error (customerTextErrors none)
  | .generateReq customerText translatedCustomerText blocks notes tone len =>
    match customerText, tone, len with
    | some s, some t, some l =>
      if generateFieldErrors (some s) (some t) (some l) = [] then
        .ok (.generatePayload s translatedCustomerText blocks notes t l)
      else .error (generateFieldErrors (some s) (some t) (some l))
    | _, _, _ => .error (generateFieldErrors customerText tone len)
  | .unknownAction => .error [("action", "Invalid discriminator value")]

/-! ## The endpoint (`route.ts` lines 100-289)

The OpenAI client is a stub: `stub n` is the outcome of the `n`-th
chat-completion call of the request.  `jparse` models `JSON.parse`
applied to the translate output plus the extraction of its
`translatedText`/`language` fields (`none` means `JSON.parse` threw).
The handler returns the HTTP response together with the ordered trace
of model calls it attempted; the inert message-text constants of the
translate branch and the system messages are not needed by any claim
and are not recorded in the trace. -/

/-- Environment (`process.env`). -/
structure Env where
  apiKey : Option String
deriving DecidableEq, Repr

/-- `ensureClient` (`route.ts` lines 100-105): throws when
`OPENAI_API_KEY` is unset or empty (JavaScript falsy). -/
def ensureClient (env : Env) : Except String Unit :=
  match env.apiKey with
  | none => .error "OPENAI_API_KEY is not set"
  | some k => if k = "" then .error "OPENAI_API_KEY is not set" else .ok ()

/-- Outcome of one `openai.chat.completions.create` call:
`success content` is a normal return whose `choices[0]?.message?.content`
is `content` (`none` for a null/absent content), `failure` is a thrown
error. -/
inductive ApiOutcome where
  | success (content : Option String)
  | failure (message : String)
deriving DecidableEq, Repr

/-- One attempted model call, as recorded in the trace. -/
inductive ModelCall where
  | translateCall
  | replyCall (prompt : String)
  | toEnglishCall (replyText : String)
deriving DecidableEq, Repr

/-- Response bodies the handler can produce. -/
inductive ResponseBody where
  | errorBody (error : String) (details : Option (List (String × String)))
  | translateParseFail (error : String) (raw : String)
  | translateOk (translatedText : String) (detectedLanguage : String)
  | generateOk (reply : String) (englishTranslation : Option String)
deriving DecidableEq, Repr

structure HttpResponse where
  status : Nat
  body : ResponseBody
deriving DecidableEq, Repr

/-- The `POST` handler of `route.ts`, with its model-call trace. -/
def POST (env : Env) (stub : Nat → ApiOutcome)
    (jparse : String → Option (String × String)) (req : RawRequest) :
    HttpResponse × List ModelCall :=
  match parseRequest req with
  | .error details => (⟨400, .errorBody "Invalid request" (some details)⟩, [])
  | .ok payload =>
    match ensureClient env with
    | .error message => (⟨500, .errorBody message none⟩, [])
    | .ok _ =>
      match payload with
      | .translatePayload _ =>
        match stub 0 with
        | .failure message => (⟨500, .errorBody message none⟩, [.translateCall])
        | .success content =>
          let outputText := content.getD ""
          match jparse outputText with
          | some (translatedText, language) =>
            (⟨200, .translateOk translatedText language⟩, [.translateCall])
          | none =>
            (⟨502, .translateParseFail "Failed to parse translation result" outputText⟩,
             [.translateCall])
      | .generatePayload customerText translatedCustomerText blocks notes tone len =>
        let prompt := generatePrompt customerText translatedCustomerText blocks notes tone len
        match stub 0 with
        | .failure message => (⟨500, .errorBody message none⟩, [.replyCall prompt])
        | .success content =>
          let replyText := jsTrim (content.getD "")
          if replyText = "" then
            (⟨500, .errorBody "返信文の生成に失敗しました。AIからの応答が空でした。" none⟩,
             [.replyCall prompt])
          else
            match stub 1 with
            | .failure _ =>
              (⟨200, .generateOk replyText none⟩,
               [.replyCall prompt, .toEnglishCall replyText])
            | .success c₂ =>
              let englishTranslation := jsTrim (c₂.getD "")
              (⟨200, .generateOk replyText
                  (if englishTranslation = "" then none else some englishTranslation)⟩,
               [.replyCall prompt, .toEnglishCall replyText])

/-! ## Presets and the Block Editor (`InfoBlockEditor.tsx`)

`presets.ts` (the `blockPresets` table imported by `page.tsx` and
`InfoBlockEditor.tsx`) is not among the repository's source files, so
the preset table itself stays an arbitrary parameter; its entry type
`PresetOption` is as declared there (`{label, values}` with `values` a
string record). -/

/-- `PresetOption` (`presets.ts`): `values` is a JavaScript object,
modelled as an association list without duplicate keys in insertion
order. -/
structure PresetOption where
  label : String
  values : List (String × String)
deriving DecidableEq, Repr

/-- Property lookup on a `values` record (`values[key]`): `none` models
`undefined`. -/
def lookupValue (values : List (String × String)) (key : String) : Option String :=
  (values.find? (fun p => decide (p.1 = key))).map Prod.snd

/-- The merged record `togglePreset` builds: start from `{}` and
`Object.assign` the `values` of each selected preset in iteration
order, so a later-selected preset overrides an earlier one on key
collision; an index with no preset (`if (preset)`) is skipped.
Modelled per key. -/
def mergedValues (presets : List PresetOption) (selected : List Nat) (key : String) :
    Option String :=
  selected.foldl
    (fun acc i =>
      match presets.get? i with
      | some preset =>
        match lookupValue preset.values key with
        | some v => some v
        | none => acc
      | none => acc)
    none

/-- The per-field update of `togglePreset` (and of the mount-time
effect): `value: mergedValues[field.label] || field.value` — an absent
or empty merged value keeps the existing one. -/
def mergeField (merged : String → Option String) (field : BlockField) : BlockField :=
  { field with
    value :=
      match merged field.label with
      | some v => if v ≠ "" then v else field.value
      | none => field.value }

/-- `block.fields.map((field) => ({...field, value: mergedValues[field.label] || field.value}))`. -/
def applyMergedValues (merged : String → Option String) (fields : List BlockField) :
    List BlockField :=
  fields.map (mergeField merged)

/-- Applying a fixed selected-preset set to a block, as `togglePreset`
does after recomputing the selection: when the selection is non-empty
the merged values are applied to every field, otherwise the block is
left untouched (`if (newSelected.size > 0)`). -/
def applyPresets (presets : List PresetOption) (selected : List Nat) (block : InfoBlock) :
    InfoBlock :=
  if selected.isEmpty then block
  else { block with fields := applyMergedValues (mergedValues presets selected) block.fields }

/-! ## Block templates (`types.ts`) and `addBlock` (`page.tsx`) -/

structure DefaultField where
  label : String
deriving DecidableEq, Repr

structure BlockTemplate where
  label : String
  icon : String
  defaultFields : List DefaultField
deriving DecidableEq, Repr

/-- The `blockTemplates` registry of `types.ts`. -/
def blockTemplates : BlockType → BlockTemplate
  | .breakfast => ⟨"朝食", "🍳", [⟨"料金"⟩, ⟨"時間"⟩, ⟨"備考"⟩]⟩
  | .dinner => ⟨"夕食", "🍽️", [⟨"料金"⟩, ⟨"時間"⟩, ⟨"備考"⟩]⟩
  | .transfer => ⟨"送迎", "🚗", [⟨"場所"⟩, ⟨"時間"⟩, ⟨"料金"⟩]⟩
  | .checkin => ⟨"チェックイン/アウト", "🏨", [⟨"チェックイン時間"⟩, ⟨"チェックアウト時間"⟩]⟩
  | .massage => ⟨"マッサージ", "💆", [⟨"コース"⟩, ⟨"料金"⟩, ⟨"時間"⟩, ⟨"備考"⟩]⟩
  | .spa => ⟨"スパ", "🧖", [⟨"コース"⟩, ⟨"料金"⟩, ⟨"時間"⟩]⟩
  | .cake => ⟨"ケーキ", "🎂", [⟨"種類"⟩, ⟨"サイズ"⟩, ⟨"料金"⟩]⟩
  | .service => ⟨"サービス", "✨", [⟨"サービス名"⟩, ⟨"料金"⟩, ⟨"備考"⟩]⟩
  | .decoration => ⟨"装飾", "🎈", [⟨"内容"⟩, ⟨"料金"⟩]⟩
  | .meal_add => ⟨"食事追加", "🍱", [⟨"メニュー"⟩, ⟨"料金"⟩, ⟨"時間"⟩]⟩
  | .lunch => ⟨"ランチ", "🥗", [⟨"メニュー"⟩, ⟨"料金"⟩, ⟨"時間"⟩]⟩
  | .facility => ⟨"施設利用", "🏢", [⟨"項目"⟩, ⟨"料金"⟩, ⟨"備考"⟩]⟩
  | .other => ⟨"その他", "📝", [⟨"タイトル"⟩, ⟨"内容"⟩]⟩

/-- The seeded fields of a new block
(`template.defaultFields.map((df, idx) => ...)` in `addBlock`):
label from the template, value `firstPreset?.values[df.label] || ""`,
id `field-${Date.now()}-${idx}`, `includeInReply` left unset. -/
def newBlockFields (now : Nat) (firstPreset : Option PresetOption) :
    Nat → List DefaultField → List BlockField
  | _, [] => []
  | idx, df :: rest =>
    { id := "field-" ++ toString now ++ "-" ++ toString idx,
      label := df.label,
      value :=
        match firstPreset with
        | some p =>
          match lookupValue p.values df.label with
          | some v => if v ≠ "" then v else ""
          | none => ""
        | none => "",
      includeInReply := none } :: newBlockFields now firstPreset (idx + 1) rest

/-- The `newBlock` literal of `addBlock` (`page.tsx` lines 122-135):
`Date.now()` is the explicit `now` argument, `blockPresets[type] || []`
is the `blockPresets` function parameter. -/
def newBlock (blockPresets : BlockType → List PresetOption) (now : Nat) (t : BlockType) :
    InfoBlock :=
  { id := "block-" ++ toString now,
    type := t,
    title := some (blockTemplates t).label,
    fields := newBlockFields now (blockPresets t).head? 0 (blockTemplates t).defaultFields }

/-- `addBlock` (`page.tsx` lines 114-140): a no-op when a block of the
same type already exists, otherwise append the template-seeded block. -/
def addBlock (blockPresets : BlockType → List PresetOption) (now : Nat)
    (s : List InfoBlock) (t : BlockType) : List InfoBlock :=
  if ∃ b ∈ s, b.type = t then s else s ++ [newBlock blockPresets now t]

/-- `updateBlock` (`page.tsx` lines 142-146): replace every block whose
id matches. -/
def updateBlock (s : List InfoBlock) (id : String) (updated : InfoBlock) :
    List InfoBlock :=
  s.map fun block => if block.id = id then updated else block

/-- `deleteBlock` (`page.tsx` lines 148-150). -/
def deleteBlock (s : List InfoBlock) (id : String) : List InfoBlock :=
  s.filter fun block => decide (block.id ≠ id)

/-- One operation on the session's `infoBlocks` list. -/
inductive DocOp where
  | addOp (now : Nat) (t : BlockType)
  | updateOp (id : String) (b : InfoBlock)
  | deleteOp (id : String)
deriving DecidableEq, Repr

def applyOp (blockPresets : BlockType → List PresetOption) (s : List InfoBlock) :
    DocOp → List InfoBlock
  | .addOp now t => addBlock blockPresets now s t
  | .updateOp id b => updateBlock s id b
  | .deleteOp id => deleteBlock s id

/-- Run a sequence of operations from the empty document
(`useState<InfoBlock[]>([])`). -/
def runOps (blockPresets : BlockType → List PresetOption) (ops : List DocOp) :
    List InfoBlock :=
  ops.foldl (applyOp blockPresets) []

/-- An `updateOp` is type-preserving on a state when its replacement
block keeps the type of every block it replaces — as every Block Editor
operation does, since each spreads `{...block}` changing only `fields`
or `title`.  `addOp` and `deleteOp` are unrestricted. -/
def OpSafe (s : List InfoBlock) : DocOp → Prop
  | .updateOp id b => ∀ blk ∈ s, blk.id = id → b.type = blk.type
  | _ => True

/-- Every operation of the sequence is type-preserving on the state it
is applied to, starting from `s`. -/
def SafeSeq (blockPresets : BlockType → List PresetOption) :
    List InfoBlock → List DocOp → Prop
  | _, [] => True
  | s, op :: rest => OpSafe s op ∧ SafeSeq blockPresets (applyOp blockPresets s op) rest

/-! ## Helper lemmas -/

theorem filter_self_idem {α : Type} (p : α → Bool) (l : List α) :
    (l.filter p).filter p = l.filter p := by
  induction l with
  | nil => rfl
  | cons a t ih =>
    by_cases h : p a = true
    · simp [List.filter_cons, h, ih]
    · simp [List.filter_cons, h, ih]

theorem renderBlock_dropExcluded (i : Nat) (b : InfoBlock) :
    renderBlock i (dropExcludedFields b) = renderBlock i b := by
  simp [renderBlock, dropExcludedFields, labelLine, resolveLabel, filter_self_idem]

theorem renderAll_dropExcluded (i : Nat) (bs : List InfoBlock) :
    renderAll i (bs.map dropExcludedFields) = renderAll i bs := by
  induction bs generalizing i with
  | nil => rfl
  | cons b t ih => simp [renderAll, renderBlock_dropExcluded, ih]

theorem formatInfoBlocks_dropExcluded (blocks : List InfoBlock) :
    formatInfoBlocks (blocks.map dropExcludedFields) = formatInfoBlocks blocks := by
  cases blocks with
  | nil => rfl
  | cons b t =>
    have h := renderAll_dropExcluded 0 (b :: t)
    rw [List.map_cons] at h
    simp [formatInfoBlocks, h]

theorem renderBlock_mem_renderAll {b : InfoBlock} {bs : List InfoBlock} (h : b ∈ bs) (i : Nat) :
    ∃ j, renderBlock j b ∈ renderAll i bs := by
  induction bs generalizing i with
  | nil => cases h
  | cons a t ih =>
    rcases List.mem_cons.mp h with rfl | hmem
    · exact ⟨i, List.mem_cons_self _ _⟩
    · obtain ⟨j, hj⟩ := ih hmem (i + 1)
      exact ⟨j, List.mem_cons_of_mem _ hj⟩

theorem fieldLine_substrOf_renderBlock {f : BlockField} {b : InfoBlock} (j : Nat)
    (hf : f ∈ b.fields) (hk : keepField f = true) :
    SubstrOf (fieldLine f) (renderBlock j b) := by
  apply substrOf_joinSep
  exact List.mem_cons_of_mem _ (List.mem_map_of_mem fieldLine (List.mem_filter.mpr ⟨hf, hk⟩))

theorem labelLine_substrOf_renderBlock (j : Nat) (b : InfoBlock) :
    SubstrOf (labelLine j b) (renderBlock j b) :=
  substrOf_joinSep "\n" (List.mem_cons_self _ _)

theorem joined_substrOf_formatInfoBlocks {blocks : List InfoBlock} (h : blocks ≠ []) :
    SubstrOf (joinSep "\n\n" (renderAll 0 blocks)) (formatInfoBlocks blocks) := by
  cases blocks with
  | nil => exact absurd rfl h
  | cons b t =>
    exact substrOf_wrap ("\n\n" ++ mustIncludeHeader ++ mustIncludeGuide)
      (joinSep "\n\n" (renderAll 0 (b :: t))) mustIncludeFooter

/-- C1: for every list of InfoBlocks passed to the generate action,
`formatInfoBlocks` excludes every field whose `includeInReply` flag is
`false` and every field whose value is empty or whitespace-only — its
output is unchanged when exactly those fields are deleted first — while
every field with `includeInReply` true (or unset, defaulting to true)
and a non-whitespace value has its label/value line rendered verbatim
in the output. -/
theorem c1_formatInfoBlocks_field_filter (blocks : List InfoBlock) :
    formatInfoBlocks (blocks.map dropExcludedFields) = formatInfoBlocks blocks ∧
    ∀ b ∈ blocks, ∀ f ∈ b.fields, keepField f = true →
      SubstrOf (fieldLine f) (formatInfoBlocks blocks) := by
  refine ⟨formatInfoBlocks_dropExcluded blocks, ?_⟩
  intro b hb f hf hk
  obtain ⟨j, hj⟩ := renderBlock_mem_renderAll hb 0
  refine substrOf_trans (substrOf_trans (fieldLine_substrOf_renderBlock j hf hk)
    (substrOf_joinSep "\n\n" hj)) (joined_substrOf_formatInfoBlocks ?_)
  rintro rfl
  cases hb

def fKeep : BlockField := ⟨"f1", "料金", "4,400円", some true⟩

def fSkip : BlockField := ⟨"f2", "時間", "7:45~10:00", some false⟩

def bMix : InfoBlock := ⟨"b1", .breakfast, none, [fKeep, fSkip]⟩

/-- Witness for C1 at a concrete block having one kept and one excluded
field. -/
theorem c1_formatInfoBlocks_field_filter_witness :
    formatInfoBlocks ([bMix].map dropExcludedFields) = formatInfoBlocks [bMix] ∧
    SubstrOf (fieldLine fKeep) (formatInfoBlocks [bMix]) :=
  ⟨(c1_formatInfoBlocks_field_filter [bMix]).1,
   (c1_formatInfoBlocks_field_filter [bMix]).2 bMix (by decide) fKeep (by decide) (by decide)⟩

def bNoKeep : InfoBlock := ⟨"b1", .breakfast, none, [⟨"f1", "料金", "4,400円", some false⟩]⟩

set_option maxRecDepth 10000 in
/-- C2 counterexample: a single block all of whose fields are excluded
is NOT omitted — `formatInfoBlocks` still renders its index/label line
and emits the wrapper header, and the result is not the empty string
even though nothing is includable. -/
theorem c2_counterexample :
    formatInfoBlocks [bNoKeep] ≠ "" ∧
    formatInfoBlocks [bNoKeep] =
      "\n\n" ++ mustIncludeHeader ++ mustIncludeGuide ++ "[1] 朝食" ++ mustIncludeFooter := by
  constructor
  · decide
  · decide

/-- C2 (amended): `formatInfoBlocks` returns the empty string exactly
when the blocks list itself is empty; a block all of whose fields are
excluded or empty/whitespace-only is still rendered, as just its
index-and-label line with no field lines; and whenever the blocks list
is non-empty the wrapper header is emitted. -/
theorem c2_formatInfoBlocks_block_level (blocks : List InfoBlock) :
    (formatInfoBlocks blocks = "" ↔ blocks = []) ∧
    (∀ i b, b.fields.filter keepField = [] → renderBlock i b = labelLine i b) ∧
    (blocks ≠ [] → SubstrOf mustIncludeHeader (formatInfoBlocks blocks)) := by
  refine ⟨⟨?_, ?_⟩, ?_, ?_⟩
  · intro h
    cases blocks with
    | nil => rfl
    | cons b t =>
      exfalso
      have hlen := congrArg String.length h
      have h2 : ("\n\n" : String).length = 2 := by decide
      simp [formatInfoBlocks, String.length_append, h2] at hlen
  · rintro rfl
    rfl
  · intro i b hfilter
    simp [renderBlock, hfilter, joinSep]
  · intro h
    cases blocks with
    | nil => exact absurd rfl h
    | cons b t =>
      exact substrOf_extend_right (substrOf_extend_right
        (substrOf_extend_right (substrOf_append_left "\n\n" mustIncludeHeader)
          mustIncludeGuide) (joinSep "\n\n" (renderAll 0 (b :: t)))) mustIncludeFooter

/-- Witness for C2 (amended) at the all-excluded concrete block. -/
theorem c2_formatInfoBlocks_block_level_witness :
    (formatInfoBlocks [bNoKeep] = "" ↔ [bNoKeep] = []) ∧
    renderBlock 0 bNoKeep = labelLine 0 bNoKeep ∧
    SubstrOf mustIncludeHeader (formatInfoBlocks [bNoKeep]) :=
  ⟨(c2_formatInfoBlocks_block_level [bNoKeep]).1,
   (c2_formatInfoBlocks_block_level [bNoKeep]).2.1 0 bNoKeep (by decide),
   (c2_formatInfoBlocks_block_level [bNoKeep]).2.2 (by decide)⟩

def wsGenerateReq : RawRequest :=
  .generateReq (some " ") none none none (some .polite) (some .short)

/-- C3 counterexample: a `generate` request whose `customerText` is the
single space `" "` (whitespace-only, length 1) passes `z.string().min(1)`,
so the endpoint does not answer 400 and the model IS called. -/
theorem c3_counterexample :
    parseRequest wsGenerateReq = .ok (.generatePayload " " none none none .polite .short) ∧
    (POST ⟨some "test-key"⟩ (fun _ => .success (some "ご連絡ありがとうございます。"))
        (fun _ => none) wsGenerateReq).1.status ≠ 400 ∧
    (POST ⟨some "test-key"⟩ (fun _ => .success (some "ご連絡ありがとうございます。"))
        (fun _ => none) wsGenerateReq).2 ≠ [] := by
  refine ⟨rfl, by decide, by decide⟩

/-- C3 (amended): a `generate` request whose `customerText` is missing
or is the empty string is rejected with HTTP 400 carrying non-empty
field-level details, and no model call is attempted; a whitespace-only
but non-empty `customerText` passes validation (see the
counterexample). -/
theorem c3_empty_customerText_rejected (env : Env) (stub : Nat → ApiOutcome)
    (jparse : String → Option (String × String)) (customerText : Option String)
    (hct : customerText = none ∨ customerText = some "")
    (tct : Option String) (blocks : Option (List InfoBlock)) (notes : Option String)
    (tone : Option Tone) (len : Option ReplyLength) :
    ∃ details, details ≠ [] ∧
      POST env stub jparse (.generateReq customerText tct blocks notes tone len) =
        (⟨400, .errorBody "Invalid request" (some details)⟩, []) := by
  refine ⟨generateFieldErrors customerText tone len, ?_, ?_⟩
  · rcases hct with rfl | rfl <;>
      cases tone <;> cases len <;>
        simp [generateFieldErrors, customerTextErrors]
  · rcases hct with rfl | rfl <;>
      cases tone <;> cases len <;>
        simp [POST, parseRequest, generateFieldErrors, customerTextErrors]

/-- Witness for C3 (amended) at the empty-string `customerText`. -/
theorem c3_empty_customerText_rejected_witness :
    ∃ details, details ≠ [] ∧
      POST ⟨some "k"⟩ (fun _ => .success (some "x")) (fun _ => none)
          (.generateReq (some "") none none none (some .polite) (some .short)) =
        (⟨400, .errorBody "Invalid request" (some details)⟩, []) :=
  c3_empty_customerText_rejected ⟨some "k"⟩ (fun _ => .success (some "x")) (fun _ => none)
    (some "") (Or.inr rfl) none none none (some .polite) (some .short)

/-- C4: when the primary model reply is empty after trimming, the
endpoint answers HTTP 500 with an error body carrying no `reply` field,
and the English-translation call is never attempted — the trace holds
exactly the one reply call. -/
theorem c4_empty_reply_is_500 (apiKey customerText : String) (hkey : apiKey ≠ "")
    (hct : 1 ≤ customerText.length)
    (tct : Option String) (blocks : Option (List InfoBlock)) (notes : Option String)
    (tone : Tone) (len : ReplyLength) (stub : Nat → ApiOutcome)
    (jparse : String → Option (String × String)) (content : Option String)
    (hstub : stub 0 = .success content) (hempty : jsTrim (content.getD "") = "") :
    POST ⟨some apiKey⟩ stub jparse
        (.generateReq (some customerText) tct blocks notes (some tone) (some len)) =
      (⟨500, .errorBody "返信文の生成に失敗しました。AIからの応答が空でした。" none⟩,
       [.replyCall (generatePrompt customerText tct blocks notes tone len)]) := by
  have hparse : parseRequest
      (.generateReq (some customerText) tct blocks notes (some tone) (some len)) =
      .ok (.generatePayload customerText tct blocks notes tone len) := by
    simp [parseRequest, generateFieldErrors, customerTextErrors, hct]
  have hclient : ensureClient ⟨some apiKey⟩ = .ok () := by simp [ensureClient, hkey]
  simp [POST, hparse, hclient, hstub, hempty, generatePrompt]

/-- Witness for C4: a stub whose first call returns whitespace-only
content. -/
theorem c4_empty_reply_is_500_witness :
    POST ⟨some "k"⟩ (fun _ => .success (some "  ")) (fun _ => none)
        (.generateReq (some "Hi") none none none (some .polite) (some .short)) =
      (⟨500, .errorBody "返信文の生成に失敗しました。AIからの応答が空でした。" none⟩,
       [.replyCall (generatePrompt "Hi" none none none .polite .short)]) :=
  c4_empty_reply_is_500 "k" "Hi" (by decide) (by decide) none none none .polite .short
    (fun _ => .success (some "  ")) (fun _ => none) (some "  ") rfl (by decide)

/-- C5: when the primary reply is non-empty after trimming but the
English-translation call throws, the endpoint still answers HTTP 200
with the Japanese reply and `englishTranslation` omitted (`undefined`);
the translation failure neither fails the request nor alters the
reply. -/
theorem c5_translation_failure_swallowed (apiKey customerText : String) (hkey : apiKey ≠ "")
    (hct : 1 ≤ customerText.length)
    (tct : Option String) (blocks : Option (List InfoBlock)) (notes : Option String)
    (tone : Tone) (len : ReplyLength) (stub : Nat → ApiOutcome)
    (jparse : String → Option (String × String)) (content : Option String)
    (hstub : stub 0 = .success content) (hne : jsTrim (content.getD "") ≠ "")
    (emsg : String) (hstub1 : stub 1 = .failure emsg) :
    POST ⟨some apiKey⟩ stub jparse
        (.generateReq (some customerText) tct blocks notes (some tone) (some len)) =
      (⟨200, .generateOk (jsTrim (content.getD "")) none⟩,
       [.replyCall (generatePrompt customerText tct blocks notes tone len),
        .toEnglishCall (jsTrim (content.getD ""))]) := by
  have hparse : parseRequest
      (.generateReq (some customerText) tct blocks notes (some tone) (some len)) =
      .ok (.generatePayload customerText tct blocks notes tone len) := by
    simp [parseRequest, generateFieldErrors, customerTextErrors, hct]
  have hclient : ensureClient ⟨some apiKey⟩ = .ok () := by simp [ensureClient, hkey]
  simp [POST, hparse, hclient, hstub, hstub1, hne, generatePrompt]

/-- Witness for C5: first call succeeds, second call throws. -/
theorem c5_translation_failure_swallowed_witness :
    POST ⟨some "k"⟩
        (fun n => if n = 0 then .success (some "承知いたしました。") else .failure "network error")
        (fun _ => none)
        (.generateReq (some "Hi") none none none (some .polite) (some .short)) =
      (⟨200, .generateOk (jsTrim ((some "承知いたしました。").getD "")) none⟩,
       [.replyCall (generatePrompt "Hi" none none none .polite .short),
        .toEnglishCall (jsTrim ((some "承知いたしました。").getD ""))]) :=
  c5_translation_failure_swallowed "k" "Hi" (by decide) (by decide) none none none .polite .short
    (fun n => if n = 0 then .success (some "承知いたしました。") else .failure "network error")
    (fun _ => none) (some "承知いたしました。") rfl (by decide) "network error" rfl

theorem formatInfoBlocks_substrOf_fullPrompt (baseText : String) (infoBlocksText : String)
    (notes : Option String) (tone : Tone) (len : ReplyLength) :
    SubstrOf infoBlocksText (fullPrompt baseText infoBlocksText notes tone len) := by
  have h0 : SubstrOf infoBlocksText
      ("# お客様からのメール（参照用）\n" ++ baseText ++ "\n" ++ infoBlocksText) :=
    substrOf_append_left _ _
  exact substrOf_extend_right (substrOf_extend_right (substrOf_extend_right
    (substrOf_extend_right (substrOf_extend_right (substrOf_extend_right
      (substrOf_extend_right h0 "\n# 社内メモ（返信に盛り込みたい要点）\n") (notesTextOf notes))
      "\n\n# 返信スタイル\n") (toneGuides tone)) "\n") (lengthGuides len)) outputRules

/-- C6: every InfoBlock field that passes the inclusion filter has its
value text appear verbatim, as an exact unaltered substring, in the
assembled generation prompt, and the block's resolved label appears in
the prompt as well. -/
theorem c6_values_verbatim_in_prompt (customerText : String) (tct : Option String)
    (blocks : List InfoBlock) (notes : Option String) (tone : Tone) (len : ReplyLength)
    (b : InfoBlock) (f : BlockField) (hb : b ∈ blocks) (hf : f ∈ b.fields)
    (hk : keepField f = true) :
    SubstrOf f.value (generatePrompt customerText tct (some blocks) notes tone len) ∧
    SubstrOf (resolveLabel b) (generatePrompt customerText tct (some blocks) notes tone len) := by
  have hne : blocks ≠ [] := by rintro rfl; cases hb
  obtain ⟨j, hj⟩ := renderBlock_mem_renderAll hb 0
  have hfmt : SubstrOf (renderBlock j b) (formatInfoBlocks blocks) :=
    substrOf_trans (substrOf_joinSep "\n\n" hj) (joined_substrOf_formatInfoBlocks hne)
  have hprompt : SubstrOf (formatInfoBlocks blocks)
      (generatePrompt customerText tct (some blocks) notes tone len) :=
    formatInfoBlocks_substrOf_fullPrompt (baseTextOf customerText tct)
      (formatInfoBlocks blocks) notes tone len
  constructor
  · have hv : SubstrOf f.value (fieldLine f) := substrOf_append_left ("  " ++ f.label ++ ": ") f.value
    exact substrOf_trans (substrOf_trans (substrOf_trans hv
      (fieldLine_substrOf_renderBlock j hf hk)) hfmt) hprompt
  · have hl : SubstrOf (resolveLabel b) (labelLine j b) :=
      substrOf_append_left ("[" ++ toString (j + 1) ++ "] ") (resolveLabel b)
    exact substrOf_trans (substrOf_trans (substrOf_trans hl
      (labelLine_substrOf_renderBlock j b)) hfmt) hprompt

def scenarioBField : BlockField := ⟨"f1", "料金", "4,400円", some true⟩

def scenarioBBlock : InfoBlock := ⟨"b1", .breakfast, none, [scenarioBField]⟩

/-- Witness for C6: end-to-end scenario B — a breakfast block with the
field `料金 = 4,400円` yields a prompt containing the exact substrings
`4,400円` and `朝食`. -/
theorem c6_values_verbatim_in_prompt_witness :
    SubstrOf "4,400円"
      (generatePrompt "Hello, is breakfast included?" none (some [scenarioBBlock]) none .polite .medium) ∧
    SubstrOf "朝食"
      (generatePrompt "Hello, is breakfast included?" none (some [scenarioBBlock]) none .polite .medium) := by
  have h := c6_values_verbatim_in_prompt "Hello, is breakfast included?" none [scenarioBBlock]
    none .polite .medium scenarioBBlock scenarioBField (by decide) (by decide) (by decide)
  exact ⟨h.1, (by decide : resolveLabel scenarioBBlock = "朝食") ▸ h.2⟩

/-- C7: for every request that passes validation, when the
`OPENAI_API_KEY` credential is unset (or empty, which JavaScript treats
as falsy) the endpoint fails fast with the configuration error thrown
by `ensureClient` before any dispatch, reported as HTTP 500, and no
model call is attempted on any path. -/
theorem c7_missing_key_no_call (env : Env)
    (hkey : env.apiKey = none ∨ env.apiKey = some "")
    (stub : Nat → ApiOutcome) (jparse : String → Option (String × String))
    (req : RawRequest) (payload : Payload) (hparse : parseRequest req = .ok payload) :
    POST env stub jparse req = (⟨500, .errorBody "OPENAI_API_KEY is not set" none⟩, []) := by
  have hclient : ensureClient env = .error "OPENAI_API_KEY is not set" := by
    rcases hkey with h | h <;> simp [ensureClient, h]
  simp [POST, hparse, hclient]

/-- Witness for C7 at a valid translate request and an absent key. -/
theorem c7_missing_key_no_call_witness :
    POST ⟨none⟩ (fun _ => .success (some "x")) (fun _ => none) (.translateReq (some "Hello")) =
      (⟨500, .errorBody "OPENAI_API_KEY is not set" none⟩, []) :=
  c7_missing_key_no_call ⟨none⟩ (Or.inl rfl) (fun _ => .success (some "x")) (fun _ => none)
    (.translateReq (some "Hello")) (.translatePayload "Hello") rfl

theorem mergeField_idem (merged : String → Option String) (field : BlockField) :
    mergeField merged (mergeField merged field) = mergeField merged field := by
  unfold mergeField
  cases hm : merged field.label with
  | none => simp [hm]
  | some v =>
    by_cases hv : v ≠ ""
    · simp [hm, hv]
    · simp [hm, hv]

theorem applyMergedValues_idem (merged : String → Option String) (fields : List BlockField) :
    applyMergedValues merged (applyMergedValues merged fields) =
      applyMergedValues merged fields := by
  unfold applyMergedValues
  rw [List.map_map]
  exact List.map_congr_left fun field _ => mergeField_idem merged field

/-- C8: applying the merged values of a fixed selected-preset set to a
block's fields twice yields exactly the same field values as applying
them once — `applyPresets` is idempotent. -/
theorem c8_applyPresets_idempotent (presets : List PresetOption) (selected : List Nat)
    (block : InfoBlock) :
    applyPresets presets selected (applyPresets presets selected block) =
      applyPresets presets selected block := by
  by_cases hsel : selected.isEmpty
  · simp [applyPresets, hsel]
  · simp [applyPresets, hsel, applyMergedValues_idem]

theorem newBlockFields_length (now : Nat) (firstPreset : Option PresetOption)
    (idx : Nat) (dfs : List DefaultField) :
    (newBlockFields now firstPreset idx dfs).length = dfs.length := by
  induction dfs generalizing idx with
  | nil => rfl
  | cons d t ih => simp [newBlockFields, ih]

theorem newBlockFields_labels (now : Nat) (firstPreset : Option PresetOption)
    (idx : Nat) (dfs : List DefaultField) :
    (newBlockFields now firstPreset idx dfs).map (fun f => f.label) =
      dfs.map (fun df => df.label) := by
  induction dfs generalizing idx with
  | nil => rfl
  | cons d t ih => simp [newBlockFields, ih]

/-- C9: a block created by `addBlock` from a type's template and never
edited has exactly `template.defaultFields.length` fields, and the
label of the i-th field equals the label of the i-th template default
field, in the same order. -/
theorem c9_template_round_trip (blockPresets : BlockType → List PresetOption)
    (now : Nat) (s : List InfoBlock) (t : BlockType) (h : ¬ ∃ b ∈ s, b.type = t) :
    addBlock blockPresets now s t = s ++ [newBlock blockPresets now t] ∧
    (newBlock blockPresets now t).fields.length = (blockTemplates t).defaultFields.length ∧
    (newBlock blockPresets now t).fields.map (fun f => f.label) =
      (blockTemplates t).defaultFields.map (fun df => df.label) := by
  refine ⟨by simp [addBlock, h], ?_, ?_⟩
  · simpa [newBlock] using
      newBlockFields_length now (blockPresets t).head? 0 (blockTemplates t).defaultFields
  · simpa [newBlock] using
      newBlockFields_labels now (blockPresets t).head? 0 (blockTemplates t).defaultFields

def noPresets : BlockType → List PresetOption := fun _ => []

/-- Witness for C9: adding a breakfast block to the empty document. -/
theorem c9_template_round_trip_witness :
    addBlock noPresets 0 [] .breakfast = [] ++ [newBlock noPresets 0 .breakfast] ∧
    (newBlock noPresets 0 .breakfast).fields.length =
      (blockTemplates .breakfast).defaultFields.length ∧
    (newBlock noPresets 0 .breakfast).fields.map (fun f => f.label) =
      (blockTemplates .breakfast).defaultFields.map (fun df => df.label) :=
  c9_template_round_trip noPresets 0 [] .breakfast (by simp)

def c10DupOps : List DocOp :=
  [.addOp 0 .breakfast, .addOp 1 .dinner,
   .updateOp "block-1" ⟨"block-1", .breakfast, none, []⟩]

/-- C10 counterexample: `updateBlock` replaces a block by id with an
arbitrary block, so an update that changes the block's type creates two
blocks of the same type — after adding breakfast and dinner blocks and
updating the dinner block to a breakfast-typed one, the document holds
two breakfast blocks. -/
theorem c10_counterexample :
    ¬ ((runOps noPresets c10DupOps).map (fun b => b.type)).Nodup ∧
    (runOps noPresets c10DupOps).map (fun b => b.type) = [.breakfast, .breakfast] := by
  refine ⟨by decide, by decide⟩

theorem applyOp_type_nodup (blockPresets : BlockType → List PresetOption)
    {s : List InfoBlock} (hnd : (s.map (fun b => b.type)).Nodup)
    {op : DocOp} (hop : OpSafe s op) :
    ((applyOp blockPresets s op).map (fun b => b.type)).Nodup := by
  cases op with
  | addOp now t =>
    show ((addBlock blockPresets now s t).map (fun b => b.type)).Nodup
    by_cases hex : ∃ b ∈ s, b.type = t
    · simpa [addBlock, hex] using hnd
    · rw [addBlock, if_neg hex, List.map_append]
      refine List.Nodup.append hnd (by simp) ?_
      intro a ha hb
      simp only [List.map_cons, List.map_nil, List.mem_singleton] at hb
      subst hb
      obtain ⟨b, hbs, hbt⟩ := List.mem_map.mp ha
      exact hex ⟨b, hbs, by simpa [newBlock] using hbt⟩
  | updateOp id b =>
    have hmap : (updateBlock s id b).map (fun blk => blk.type) =
        s.map (fun blk => blk.type) := by
      unfold updateBlock
      rw [List.map_map]
      refine List.map_congr_left fun blk hblk => ?_
      by_cases hid : blk.id = id
      · simp [Function.comp, hid, hop blk hblk hid]
      · simp [Function.comp, hid]
    rw [show applyOp blockPresets s (.updateOp id b) = updateBlock s id b from rfl, hmap]
    exact hnd
  | deleteOp id =>
    exact List.Nodup.sublist (List.Sublist.map _ (List.filter_sublist s)) hnd

theorem runOps_type_nodup_aux (blockPresets : BlockType → List PresetOption)
    (ops : List DocOp) :
    ∀ s, (s.map (fun b => b.type)).Nodup → SafeSeq blockPresets s ops →
      ((ops.foldl (applyOp blockPresets) s).map (fun b => b.type)).Nodup := by
  induction ops with
  | nil => intro s h _; simpa using h
  | cons op rest ih =>
    intro s h hsafe
    obtain ⟨hop, hrest⟩ := hsafe
    exact ih (applyOp blockPresets s op) (applyOp_type_nodup blockPresets h hop) hrest

/-- C10 (amended): `addBlock` is a no-op when a block of the requested
type already exists (forbid-duplicates, not toggle-remove).  Starting
from the empty document, every sequence of addBlock/updateBlock/
deleteBlock operations in which each updateBlock's replacement block
preserves the type of every block it replaces — as all Block Editor
operations do — keeps the infoBlocks list free of duplicate types; a
type-changing updateBlock can break this (see the counterexample). -/
theorem c10_no_duplicate_types (blockPresets : BlockType → List PresetOption)
    (ops : List DocOp) (h : SafeSeq blockPresets [] ops) :
    ((runOps blockPresets ops).map (fun b => b.type)).Nodup ∧
    (∀ s now t, (∃ b ∈ s, b.type = t) → addBlock blockPresets now s t = s) := by
  refine ⟨runOps_type_nodup_aux blockPresets ops [] (by simp) h, ?_⟩
  intro s now t hex
  simp [addBlock, hex]

/-- Witness for C10 (amended): add, type-preserving update, then a
duplicate add (which is a no-op). -/
theorem c10_no_duplicate_types_witness :
    ((runOps noPresets
        [.addOp 0 .breakfast,
         .updateOp "block-0" ⟨"block-0", .breakfast, none, []⟩,
         .addOp 1 .breakfast]).map (fun b => b.type)).Nodup ∧
    (∀ s now t, (∃ b ∈ s, b.type = t) → addBlock noPresets now s t = s) :=
  c10_no_duplicate_types noPresets
    [.addOp 0 .breakfast,
     .updateOp "block-0" ⟨"block-0", .breakfast, none, []⟩,
     .addOp 1 .breakfast]
    ⟨trivial, by simp only [OpSafe]; decide, trivial, trivial⟩
